import Mathlib

/-!
Verification of the post-creation pipeline of `content_generator.py`.

The script is embedded shallowly: Python strings become `List Char`
(written `Str`), the pure helpers (`slugify`, `generate_text_local_fallback`,
the front-matter assembly) become Lean functions, and the effectful parts
(`generate_text_via_openrouter`, `create_post`) become functions of an
explicit environment record that carries the outcome of every external
interaction (clock reads, directory listing, HTTP responses, filesystem
success flags) together with an explicit trace of the effects performed.
-/

set_option maxRecDepth 10000

/-- Python strings are modelled as lists of characters. -/
abbrev Str := List Char

namespace ContentGenerator

/-- Closed numeric range test on code points, used to express the regex
character classes of the source. -/
def between (lo c hi : Char) : Bool :=
  lo.toNat ≤ c.toNat && c.toNat ≤ hi.toNat

/-- Character class of the regex `[^a-z0-9\-а-яё]` in `slugify` (line 45):
a character is kept when it is an ASCII lower-case letter, an ASCII digit,
the dash, a lower-case Cyrillic letter `а`..`я`, or `ё`. -/
def isAllowed (c : Char) : Bool :=
  between 'a' c 'z' || between '0' c '9' || c = '-' || between 'а' c 'я' || c = 'ё'

/-- Whitespace class of Python's `\s` on `str` (as matched by
`re.sub(r'\s+', '-', text)` in line 44): space, `\t`, `\n`, `\v`, `\f`,
`\r`, the file/group/record/unit separators 28..31, NEL, NBSP, and the
Unicode space code points. -/
def isPySpace (c : Char) : Bool :=
  c.toNat = 32 || (9 ≤ c.toNat && c.toNat ≤ 13) || (28 ≤ c.toNat && c.toNat ≤ 31)
    || c.toNat = 133 || c.toNat = 160 || c.toNat = 5760
    || (8192 ≤ c.toNat && c.toNat ≤ 8202) || c.toNat = 8232 || c.toNat = 8233
    || c.toNat = 8239 || c.toNat = 8287 || c.toNat = 12288

/-- Model of Python `str.lower()` (line 42) on the alphabets the script
works with: ASCII upper-case letters and Cyrillic upper-case letters
(`А`..`Я` and `Ё`) are mapped to their lower-case forms; every other
character is left unchanged.  (Exotic one-to-many Unicode case mappings
are outside the title alphabet of this script; any character they could
produce outside `[a-z0-9\-а-яё]` is replaced by a dash in the next step
either way.) -/
def pyLower (c : Char) : Char :=
  if between 'A' c 'Z' then Char.ofNat (c.toNat + 32)
  else if between 'А' c 'Я' then Char.ofNat (c.toNat + 32)
  else if c = 'Ё' then 'ё'
  else c

/-- Embedding of `re.sub(r'\s+', '-', text)` (line 44): each maximal run of
whitespace characters is replaced by a single dash.  The boolean flag
records whether the previous character belonged to a whitespace run. -/
def subWS : Str → Bool → Str
  | [], _ => []
  | c :: cs, prevWS =>
    if isPySpace c then
      if prevWS then subWS cs true else '-' :: subWS cs true
    else c :: subWS cs false

/-- Embedding of `re.sub(r'-{2,}', '-', text)` (line 46): each maximal run
of two or more dashes is replaced by a single dash (runs of one dash are
left alone, which comes to the same thing).  The flag records whether the
previous character was a dash. -/
def collapseDashes : Str → Bool → Str
  | [], _ => []
  | c :: cs, prevDash =>
    if c = '-' then
      if prevDash then collapseDashes cs true else '-' :: collapseDashes cs true
    else c :: collapseDashes cs false

/-- Right-strip by a character predicate: removes the maximal trailing run
of characters satisfying `p` (the right half of Python `str.strip`). -/
def rstripP (p : Char → Bool) : Str → Str
  | [] => []
  | c :: cs =>
    match rstripP p cs with
    | [] => if p c then [] else [c]
    | r => c :: r

/-- Embedding of `text.strip('-')` (line 47): drop leading dashes, then
trailing dashes. -/
def stripDashes (l : Str) : Str :=
  rstripP (fun c => c = '-') (l.dropWhile (fun c => c = '-'))

/-- The `slugify` pipeline of lines 42..47, before the final truncation
`text[:maxlen]`: lower-case, collapse whitespace runs to a dash, replace
characters outside the allow-list by a dash, collapse dash runs, strip
leading and trailing dashes. -/
def slugifyFull (text : Str) : Str :=
  let t1 := text.map pyLower
  let t2 := subWS t1 false
  let t3 := t2.map (fun c => if isAllowed c then c else '-')
  let t4 := collapseDashes t3 false
  stripDashes t4

/-- Embedding of `slugify(text, maxlen=60)` (lines 41..48): the pipeline of
`slugifyFull` followed by the truncation `text[:maxlen]` of line 48. -/
def slugify (text : Str) (maxlen : Nat := 60) : Str :=
  (slugifyFull text).take maxlen

/-- Decidable statement that a character list contains no two adjacent
dashes (the post-condition of collapsing `-{2,}`). -/
def noDoubleDash : Str → Bool
  | c1 :: c2 :: rest => !(c1 = '-' && c2 = '-') && noDoubleDash (c2 :: rest)
  | _ => true

/-- The `PROMPTS` topic catalog (lines 22..31). -/
def PROMPTS : List Str :=
  [ "Обзор новой архитектуры нейросети".toList,
    "Урок по использованию Python для ИИ".toList,
    "Мастер-класс: генерация изображений нейросетями".toList,
    "Будущее высоких технологий".toList,
    "Нейросети в медицине".toList,
    "ИИ и кибербезопасность".toList,
    "Как работает обучение с подкреплением".toList,
    "Тенденции машинного обучения 2025".toList ]

/-- The posts directory `POSTS_DIR = Path("content/posts")` (line 20). -/
def POSTS_DIR : Str := "content/posts".toList

/-- The image directory `IMG_DIR = Path("static/images/gallery")` (line 21). -/
def IMG_DIR : Str := "static/images/gallery".toList

/-- POSIX `Path` join: `dir / name` (the script runs on a forward-slash
filesystem; `str(path).replace(os.path.sep, "/")` is then the identity). -/
def pathJoin (dir name : Str) : Str := dir ++ '/' :: name

/-- Index of the last `'.'` of a name, if any (CPython `str.rfind('.')`). -/
def lastDotPos : Str → Option Nat
  | [] => none
  | c :: cs =>
    match lastDotPos cs with
    | some i => some (i + 1)
    | none => if c = '.' then some 0 else none

/-- Python `pathlib.PurePath.suffix` on a bare file name: the part from the
last dot on, provided that dot is neither the first nor the last character
of the name. -/
def suffixOf (name : Str) : Str :=
  match lastDotPos name with
  | some i => if 0 < i ∧ i < name.length - 1 then name.drop i else []
  | none => []

/-- Python `str.strip()` with no argument: remove leading and trailing
whitespace. -/
def pyStrip (l : Str) : Str :=
  rstripP isPySpace (l.dropWhile isPySpace)

/-- Python `title.replace('"', '\\"')` (line 162): every double quote is
replaced by a backslash followed by a double quote. -/
def escapeQuotes (s : Str) : Str :=
  s.foldr (fun c acc => (if c = '"' then ['\\', '"'] else [c]) ++ acc) []

/-- The `"message"` value of a choice, when it is a JSON object: its
optional `"content"` field. -/
structure MessageObj where
  content : Option Str
  deriving DecidableEq, Repr

/-- One element of the `"choices"` array of an OpenRouter response.
`message = none` models both an absent `"message"` key and a `"message"`
value that is not a dict (the `isinstance(message, dict)` test of line 92
fails in either case and the code falls through to the `"text"` field). -/
structure ChoiceObj where
  message : Option MessageObj
  text : Option Str
  deriving DecidableEq, Repr

/-- The parsed JSON body `data = r.json()` of a response, restricted to the
single field the code inspects.  `choices = none` models an absent
`"choices"` key; the Python truthiness test `"choices" in data and
data["choices"]` additionally requires the list to be non-empty. -/
structure ApiData where
  choices : Option (List ChoiceObj)
  deriving DecidableEq, Repr

/-- Outcome of one `requests.post` call: either a raised
`requests.RequestException` (connection error, timeout), or a response
with an HTTP status code and a parsed JSON body. -/
inductive PostOutcome where
  | exn : PostOutcome
  | resp (status : Nat) (data : ApiData) : PostOutcome
  deriving DecidableEq, Repr

/-- The Python truthiness of `"choices" in data and data["choices"]`
(line 89). -/
def truthyChoices (d : ApiData) : Bool :=
  match d.choices with
  | some (_ :: _) => true
  | _ => false

/-- Extraction of the returned body from the first choice (lines 91..95):
if the `"message"` value is a dict, `message.get("content", "").strip()`;
otherwise `data["choices"][0].get("text", "").strip()`. -/
def extractContent (c : ChoiceObj) : Str :=
  match c.message with
  | some m => pyStrip (m.content.getD [])
  | none => pyStrip (c.text.getD [])

/-- The first choice of the payload, under the truthiness guard. -/
def extractFirst (d : ApiData) : Str :=
  match d.choices with
  | some (c :: _) => extractContent c
  | _ => []

/-- Result of `generate_text_via_openrouter`: a returned body, or a raised
exception (`RuntimeError` after exhausted retries or a non-retryable
status, propagated to the caller). -/
inductive GenResult where
  | ok (body : Str) : GenResult
  | err : GenResult
  deriving DecidableEq, Repr

/-- Observable trace of one run of `generate_text_via_openrouter`: its
result, the number of `requests.post` calls actually issued, and the
backoff durations (in seconds) passed to `time.sleep`, in order. -/
structure GenTrace where
  result : GenResult
  calls : Nat
  sleeps : List Nat
  deriving DecidableEq, Repr

/-- The `for i in range(attempts)` loop of lines 85..104.  `i` is the
current attempt index, the second argument the number of iterations left,
and `oracle i` the outcome of the `requests.post` call of attempt `i`.
Control flow per iteration: on a 200 response with a truthy `"choices"`
list, return the extracted content; otherwise on status 401, 402 or 429,
`break` out of the loop (and the function then raises); on any other
response or on a `RequestException`, `time.sleep(2**i)` and try again.
When the iterations are exhausted the function raises `RuntimeError`
(line 105). -/
def genLoop (oracle : Nat → PostOutcome) : Nat → Nat → GenTrace
  | _, 0 => { result := GenResult.err, calls := 0, sleeps := [] }
  | i, n + 1 =>
    match oracle i with
    | PostOutcome.exn =>
      let t := genLoop oracle (i + 1) n
      { result := t.result, calls := t.calls + 1, sleeps := 2 ^ i :: t.sleeps }
    | PostOutcome.resp status data =>
      if status = 200 ∧ truthyChoices data then
        { result := GenResult.ok (extractFirst data), calls := 1, sleeps := [] }
      else if status = 401 ∨ status = 402 ∨ status = 429 then
        { result := GenResult.err, calls := 1, sleeps := [] }
      else
        let t := genLoop oracle (i + 1) n
        { result := t.result, calls := t.calls + 1, sleeps := 2 ^ i :: t.sleeps }

/-- Embedding of `generate_text_via_openrouter(title, attempts=3, timeout=15)`
(lines 72..105).  `keyPresent` is the `OPENROUTER_API_KEY` guard of line 73
(when the key is absent the function raises at once, before any request);
`oracle` gives the outcome of each `requests.post` call.  The request
payload (model name, system and user messages built from the title) does
not influence the control flow and is abstracted into the oracle. -/
def generate_text_via_openrouter (keyPresent : Bool) (oracle : Nat → PostOutcome)
    (attempts : Nat := 3) : GenTrace :=
  if keyPresent then genLoop oracle 0 attempts
  else { result := GenResult.err, calls := 0, sleeps := [] }

/-- Embedding of `generate_text_local_fallback(title)` (lines 108..115):
a deterministic, purely local templated article referencing the title. -/
def generate_text_local_fallback (title : Str) : Str :=
  let intro := "В этой статье рассматривается «".toList ++ title
    ++ "». Я опишу ключевые концепции, практические примеры и дам рекомендации.".toList
  let s1 := "## Введение\n".toList ++ (intro ++ ' ' :: intro)
  let s2 := ("## Основные идеи\n"
    ++ "Здесь описаны основные подходы, архитектуры и ключевые понятия.").toList
  let s3 := ("## Практическая часть\n"
    ++ "Пошаговый пример и рекомендации для внедрения.").toList
  let s4 := ("## Заключение\n"
    ++ "Короткое резюме и направления для дальнейшего чтения.").toList
  s1 ++ "\n\n".toList ++ s2 ++ "\n\n".toList ++ s3 ++ "\n\n".toList ++ s4

/-- Environment of one `create_post()` run: the outcome of every external
interaction the function performs, in the source's order of use.  The two
`datetime.utcnow()` reads (line 122 for the date, line 163 for the
timestamp) are separate fields because the code calls the clock twice. -/
structure Env where
  /-- index drawn by `random.choice(PROMPTS)` (line 120), reduced mod the
  catalog length -/
  rngTopic : Nat
  /-- index drawn by `random.choice(imgs)` in `pick_existing_image`
  (line 69) -/
  rngImage : Nat
  /-- `datetime.utcnow().strftime("%Y-%m-%d")` (line 122) -/
  today : Str
  /-- `datetime.utcnow().isoformat()` (line 163) -/
  nowIso : Str
  /-- whether `ensure_dirs()` (line 119) succeeds; `Path.mkdir` raises
  `OSError` on failure and nothing catches it -/
  mkdirOk : Bool
  /-- the file names listed by `IMG_DIR.iterdir()` and passing `is_file()`
  in `pick_existing_image` (line 68) -/
  existingImages : List Str
  /-- whether the byte-copy of the existing image (lines 133-134)
  succeeds -/
  copyOk : Bool
  /-- whether `download_random_image` succeeds (it catches every exception
  internally and returns a boolean, lines 57-65) -/
  downloadOk : Bool
  /-- whether `OPENROUTER_API_KEY` is set (line 38) -/
  apiKeySet : Bool
  /-- outcome of each `requests.post` attempt inside
  `generate_text_via_openrouter` -/
  textOracle : Nat → PostOutcome
  /-- whether the final `open(filepath, "w")` + write (lines 175-176)
  succeeds -/
  writeOk : Bool

/-- The externally visible pipeline steps of one run, for ordering
statements. -/
inductive Event where
  | topicSelected : Event
  | imageAcquired : Event
  | textAcquired : Event
  | fileWritten : Event
  deriving DecidableEq, Repr

/-- The exceptions `create_post` can let escape: an `OSError` from
`ensure_dirs`, or the re-raised exception of the final post-file write
(lines 178-180). -/
inductive RunError where
  | mkdirFailed : RunError
  | writeFailed : RunError
  deriving DecidableEq, Repr

/-- The fields of the YAML front matter block built in lines 160..168.
`image = none` means the `image:` key is omitted entirely (line 166 only
appends it when `imgpath` is truthy). -/
structure FrontMatter where
  title : Str
  date : Str
  image : Option Str
  deriving DecidableEq, Repr

/-- Python `"\n".join` on a list of strings. -/
def joinNL : List Str → Str
  | [] => []
  | [s] => s
  | s :: s2 :: rest => s ++ '\n' :: joinNL (s2 :: rest)

/-- The `title:` line of the front matter (line 162). -/
def titleLine (t : Str) : Str := "title: \"".toList ++ escapeQuotes t ++ ['"']

/-- The `date:` line of the front matter (line 163). -/
def dateLine (d : Str) : Str := "date: \"".toList ++ d ++ "Z\"".toList

/-- The `image:` line of the front matter (line 167). -/
def imageLine (u : Str) : Str := "image: \"".toList ++ u ++ ['"']

/-- The field lines of the front matter, between the two `---` fences. -/
def yamlFields (fm : FrontMatter) : List Str :=
  ["---".toList, titleLine fm.title, dateLine fm.date, "draft: false".toList]
    ++ (match fm.image with
        | some u => [imageLine u]
        | none => [])

/-- The `yaml_front` list exactly as the code builds it (lines 160..168):
the field lines followed by the closing element `"---\n"`. -/
def yamlFront (fm : FrontMatter) : List Str :=
  yamlFields fm ++ ["---\n".toList]

/-- One written post: its path and the two logical parts of its content. -/
structure PostRecord where
  path : Str
  fm : FrontMatter
  body : Str
  deriving DecidableEq, Repr

/-- The full markdown written to disk (line 171):
`md = "\n".join(yaml_front) + content + "\n"`. -/
def renderPost (p : PostRecord) : Str :=
  joinNL (yamlFront p.fm) ++ p.body ++ ['\n']

/-- Modelled from the spec's words (section 6, content store): the
front-matter block of a post file, read as the region from the opening
`---` fence to the closing `---` fence inclusive.  Used to compare the
spec's layout `block, blank line, body` with what the code writes. -/
def frontMatterBlock (fm : FrontMatter) : Str :=
  joinNL (yamlFields fm ++ ["---".toList])

/-- The title selected by `random.choice(PROMPTS)` (line 120), with the
random draw supplied by the environment. -/
def titleOf (env : Env) : Str :=
  PROMPTS.getD (env.rngTopic % PROMPTS.length) []

/-- Embedding of `pick_existing_image()` (lines 67..69): `None` when the
gallery is empty, otherwise a uniformly drawn existing file name. -/
def pick_existing_image (env : Env) : Option Str :=
  if env.existingImages.isEmpty then none
  else some (env.existingImages.getD (env.rngImage % env.existingImages.length) [])

/-- Embedding of `download_random_image(dest)` (lines 54..65): returns
whether the download succeeded, the files it wrote, and the destinations
it attempted.  All failures (network and file) are caught internally; on
failure nothing is written. -/
def download_random_image (env : Env) (dest : Str) : Bool × List Str × List Str :=
  if env.downloadOk then (true, [dest], [dest]) else (false, [], [dest])

/-- The image-acquisition block of `create_post` (lines 126..145).
Returns the final value of the `imgpath` variable (`none` models Python
`None`), the image files written, and the download destinations attempted.
With an existing image: copy it under the new name; if the copy raises,
fall back to downloading to `{today}-{slug}.png` — the boolean result of
that download is ignored, so `imgpath` keeps pointing at the `.png` path
either way.  With no existing image: download to the `.png` path, and set
`imgpath` to `None` if the download reports failure. -/
def acquireImage (env : Env) (today slug : Str) : Option Str × List Str × List Str :=
  match pick_existing_image env with
  | some existing =>
    let imgname := today ++ '-' :: slug ++ suffixOf existing
    let imgpath := pathJoin IMG_DIR imgname
    if env.copyOk then (some imgpath, [imgpath], [])
    else
      let imgpath2 := pathJoin IMG_DIR (today ++ '-' :: slug ++ ".png".toList)
      let dl := download_random_image env imgpath2
      (some imgpath2, dl.2.1, dl.2.2)
  | none =>
    let imgpath := pathJoin IMG_DIR (today ++ '-' :: slug ++ ".png".toList)
    let dl := download_random_image env imgpath
    if dl.1 then (some imgpath, dl.2.1, dl.2.2) else (none, dl.2.1, dl.2.2)

/-- The text-acquisition block of `create_post` (lines 147..157): with a
key, call the remote generator and fall back to the local template on any
exception; without a key, use the local template directly. -/
def acquireText (env : Env) (title : Str) : Str :=
  if env.apiKeySet then
    match (generate_text_via_openrouter true env.textOracle 3).result with
    | GenResult.ok s => s
    | GenResult.err => generate_text_local_fallback title
  else generate_text_local_fallback title

/-- Observable outcome of one `create_post()` run. -/
structure RunResult where
  /-- the pipeline steps, in execution order -/
  events : List Event
  /-- image files created under `IMG_DIR` during the run -/
  imagesWritten : List Str
  /-- destinations passed to `download_random_image` during the run -/
  downloadsAttempted : List Str
  /-- the written post, or the exception that escaped -/
  outcome : Except RunError PostRecord

/-- Embedding of `create_post()` (lines 118..180), steps in source order:
`ensure_dirs()`; topic selection; slug, date and filename derivation;
image acquisition; text acquisition; front-matter assembly; the final
file write, whose failure is re-raised (lines 174..180). -/
def create_post (env : Env) : RunResult :=
  if env.mkdirOk then
    let title := titleOf env
    let slug := slugify title
    let filename := env.today ++ '-' :: slug ++ ".md".toList
    let filepath := pathJoin POSTS_DIR filename
    let events0 := [Event.topicSelected]
    let acq := acquireImage env env.today slug
    let events1 := events0 ++ [Event.imageAcquired]
    let content := acquireText env title
    let events2 := events1 ++ [Event.textAcquired]
    let fm : FrontMatter :=
      { title := title, date := env.nowIso, image := acq.1.map (fun p => '/' :: p) }
    let post : PostRecord := { path := filepath, fm := fm, body := content }
    if env.writeOk then
      { events := events2 ++ [Event.fileWritten], imagesWritten := acq.2.1,
        downloadsAttempted := acq.2.2, outcome := Except.ok post }
    else
      { events := events2, imagesWritten := acq.2.1,
        downloadsAttempted := acq.2.2, outcome := Except.error RunError.writeFailed }
  else
    { events := [], imagesWritten := [], downloadsAttempted := [],
      outcome := Except.error RunError.mkdirFailed }

/-- The written post of a run, when one was written. -/
def writtenPost (r : RunResult) : Option PostRecord :=
  match r.outcome with
  | Except.ok p => some p
  | Except.error _ => none

/-- The escaped exception of a run, when one escaped. -/
def runError (r : RunResult) : Option RunError :=
  match r.outcome with
  | Except.ok _ => none
  | Except.error e => some e

/-- Index of the first occurrence of an event in a trace (length of the
trace when absent). -/
def firstIdx (e : Event) : List Event → Nat
  | [] => 0
  | x :: xs => if x = e then 0 else firstIdx e xs + 1

/-- An oracle whose every `requests.post` call raises a transport
exception. -/
def allExnOracle : Nat → PostOutcome := fun _ => PostOutcome.exn

/-- An oracle whose every call yields HTTP 200 with a JSON body that has
no `"choices"` key: a structurally invalid success response. -/
def noChoicesOracle : Nat → PostOutcome :=
  fun _ => PostOutcome.resp 200 { choices := none }

/-- A healthy baseline run environment: directories and the final write
succeed, no credential is configured, the gallery is empty and the image
download fails (so no image step interferes), on 2024-01-01. -/
def baseEnv : Env where
  rngTopic := 0
  rngImage := 0
  today := "2024-01-01".toList
  nowIso := "2024-01-01T00:00:00".toList
  mkdirOk := true
  existingImages := []
  copyOk := true
  downloadOk := false
  apiKeySet := false
  textOracle := allExnOracle
  writeOk := true

/-- Environment for the propagation counterexample: every collaborator is
healthy and the post-file write would succeed, but `ensure_dirs` fails. -/
def envMkdirFails : Env := { baseEnv with mkdirOk := false }

/-- Environment for the step-order counterexample: a plain successful
fallback run. -/
def envOrderRun : Env := baseEnv

/-- Environment for the layout counterexample: a plain successful fallback
run on a gallery with one prior image, download failing, copy failing. -/
def envLayoutRun : Env :=
  { baseEnv with existingImages := ["2023-12-31-old.png".toList], copyOk := false }

/-- The baseline environment with a configured OpenRouter credential (and
its every remote attempt failing with a transport error). -/
def baseEnvKey : Env := { baseEnv with apiKeySet := true }

/-- Trailing element of a character list, as a total observer. -/
def lastElem : Str → Option Char
  | [] => none
  | [c] => some c
  | _ :: c :: cs => lastElem (c :: cs)

end ContentGenerator

namespace ContentGenerator

/-! ### Character-class lemmas -/

theorem toNat_lower_a : 'a'.toNat = 97 := rfl

theorem toNat_lower_z : 'z'.toNat = 122 := rfl

theorem toNat_digit_0 : '0'.toNat = 48 := rfl

theorem toNat_digit_9 : '9'.toNat = 57 := rfl

theorem toNat_upper_a : 'A'.toNat = 65 := rfl

theorem toNat_upper_z : 'Z'.toNat = 90 := rfl

theorem toNat_cyr_a : 'а'.toNat = 1072 := rfl

theorem toNat_cyr_ya : 'я'.toNat = 1103 := rfl

theorem toNat_cyr_A : 'А'.toNat = 1040 := rfl

theorem toNat_cyr_YA : 'Я'.toNat = 1071 := rfl

theorem isAllowed_dash : isAllowed '-' = true := by decide

/-- Every character of the allow-list is a fixed point of the modelled
`str.lower()`. -/
theorem pyLower_of_allowed {c : Char} (h : isAllowed c = true) : pyLower c = c := by
  simp only [isAllowed, between, Bool.or_eq_true, Bool.and_eq_true, decide_eq_true_eq,
    toNat_lower_a, toNat_lower_z, toNat_digit_0, toNat_digit_9, toNat_cyr_a, toNat_cyr_ya] at h
  rcases h with ((((⟨h1, h2⟩ | ⟨h1, h2⟩) | h) | ⟨h1, h2⟩) | h)
  · simp only [pyLower, between, toNat_upper_a, toNat_upper_z, toNat_cyr_A, toNat_cyr_YA]
    have hA : (65 ≤ c.toNat && c.toNat ≤ 90) = false := by
      simp only [Bool.and_eq_false_iff, decide_eq_false_iff_not]; omega
    have hB : (1040 ≤ c.toNat && c.toNat ≤ 1071) = false := by
      simp only [Bool.and_eq_false_iff, decide_eq_false_iff_not]; omega
    have hC : c ≠ 'Ё' := by intro he; subst he; revert h1 h2; decide
    simp [hA, hB, hC]
  · simp only [pyLower, between, toNat_upper_a, toNat_upper_z, toNat_cyr_A, toNat_cyr_YA]
    have hA : (65 ≤ c.toNat && c.toNat ≤ 90) = false := by
      simp only [Bool.and_eq_false_iff, decide_eq_false_iff_not]; omega
    have hB : (1040 ≤ c.toNat && c.toNat ≤ 1071) = false := by
      simp only [Bool.and_eq_false_iff, decide_eq_false_iff_not]; omega
    have hC : c ≠ 'Ё' := by intro he; subst he; revert h1 h2; decide
    simp [hA, hB, hC]
  · subst h; decide
  · simp only [pyLower, between, toNat_upper_a, toNat_upper_z, toNat_cyr_A, toNat_cyr_YA]
    have hA : (65 ≤ c.toNat && c.toNat ≤ 90) = false := by
      simp only [Bool.and_eq_false_iff, decide_eq_false_iff_not]; omega
    have hB : (1040 ≤ c.toNat && c.toNat ≤ 1071) = false := by
      simp only [Bool.and_eq_false_iff, decide_eq_false_iff_not]; omega
    have hC : c ≠ 'Ё' := by intro he; subst he; revert h1 h2; decide
    simp [hA, hB, hC]
  · subst h; decide

/-- No character of the allow-list is whitespace. -/
theorem not_space_of_allowed {c : Char} (h : isAllowed c = true) : isPySpace c = false := by
  simp only [isAllowed, between, Bool.or_eq_true, Bool.and_eq_true, decide_eq_true_eq,
    toNat_lower_a, toNat_lower_z, toNat_digit_0, toNat_digit_9, toNat_cyr_a, toNat_cyr_ya] at h
  have hn : (97 ≤ c.toNat ∧ c.toNat ≤ 122) ∨ (48 ≤ c.toNat ∧ c.toNat ≤ 57) ∨ c.toNat = 45 ∨
      (1072 ≤ c.toNat ∧ c.toNat ≤ 1103) ∨ c.toNat = 1105 := by
    rcases h with ((((h | h) | h) | h) | h)
    · exact Or.inl h
    · exact Or.inr (Or.inl h)
    · subst h; exact Or.inr (Or.inr (Or.inl rfl))
    · exact Or.inr (Or.inr (Or.inr (Or.inl h)))
    · subst h; exact Or.inr (Or.inr (Or.inr (Or.inr rfl)))
  simp only [isPySpace, Bool.or_eq_false_iff, Bool.and_eq_false_iff,
    decide_eq_false_iff_not]
  omega

/-! ### Generic list helpers -/

theorem bool_eq_false {b : Bool} (h : ¬ b = true) : b = false := by
  cases b
  · rfl
  · exact absurd rfl h

theorem map_self_of {f : Char → Char} :
    ∀ l : Str, (∀ c ∈ l, f c = c) → l.map f = l := by
  intro l h
  induction l with
  | nil => rfl
  | cons x xs ih =>
    simp only [List.map_cons]
    rw [h x (List.mem_cons_self x xs), ih fun c hc => h c (List.mem_cons_of_mem x hc)]

theorem mem_dropWhile {p : Char → Bool} {c : Char} :
    ∀ l : Str, c ∈ l.dropWhile p → c ∈ l := by
  intro l
  induction l with
  | nil => intro h; simp at h
  | cons x xs ih =>
    intro h
    by_cases hx : p x = true
    · rw [List.dropWhile_cons_of_pos hx] at h
      exact List.mem_cons_of_mem x (ih h)
    · rw [List.dropWhile_cons_of_neg (by simp [bool_eq_false hx])] at h
      exact h

theorem head_dropWhile_false {p : Char → Bool} {c : Char} :
    ∀ l : Str, (l.dropWhile p).head? = some c → p c = false := by
  intro l
  induction l with
  | nil => intro h; simp [List.dropWhile] at h
  | cons x xs ih =>
    intro h
    by_cases hx : p x = true
    · rw [List.dropWhile_cons_of_pos hx] at h
      exact ih h
    · rw [List.dropWhile_cons_of_neg (by simp [bool_eq_false hx])] at h
      simp only [List.head?_cons, Option.some.injEq] at h
      exact h ▸ bool_eq_false hx

theorem dropWhile_id_of_head {p : Char → Bool} :
    ∀ l : Str, (∀ c, l.head? = some c → p c = false) → l.dropWhile p = l := by
  intro l h
  cases l with
  | nil => rfl
  | cons x xs => exact List.dropWhile_cons_of_neg (by simp [h x rfl])

theorem length_dropWhile_le' {p : Char → Bool} :
    ∀ l : Str, (l.dropWhile p).length ≤ l.length := by
  intro l
  induction l with
  | nil => simp [List.dropWhile]
  | cons x xs ih =>
    by_cases hx : p x = true
    · rw [List.dropWhile_cons_of_pos hx]
      exact Nat.le_succ_of_le ih
    · rw [List.dropWhile_cons_of_neg (by simp [bool_eq_false hx])]

theorem head?_take_pos {l : Str} {n : Nat} (hn : 0 < n) : (l.take n).head? = l.head? := by
  cases l with
  | nil => simp
  | cons x xs =>
    cases n with
    | zero => omega
    | succ m => simp

/-! ### Lemmas about the slugify stages -/

theorem subWS_id : ∀ (l : Str) (b : Bool), (∀ c ∈ l, isPySpace c = false) → subWS l b = l := by
  intro l
  induction l with
  | nil => intro b _; rfl
  | cons x xs ih =>
    intro b h
    have hx : isPySpace x = false := h x (List.mem_cons_self x xs)
    simp only [subWS, hx, Bool.false_eq_true, if_false, List.cons.injEq, true_and]
    exact ih false fun c hc => h c (List.mem_cons_of_mem x hc)

theorem length_subWS_le : ∀ (l : Str) (b : Bool), (subWS l b).length ≤ l.length := by
  intro l
  induction l with
  | nil => intro b; simp [subWS]
  | cons x xs ih =>
    intro b
    by_cases hx : isPySpace x = true
    · cases b
      · simpa [subWS, hx] using Nat.succ_le_succ (ih true)
      · simp only [subWS, hx, if_true]
        exact Nat.le_succ_of_le (ih true)
    · simpa [subWS, bool_eq_false hx] using Nat.succ_le_succ (ih false)

theorem allowed_mapSub {c : Char} {l : Str}
    (h : c ∈ l.map (fun c => if isAllowed c then c else '-')) : isAllowed c = true := by
  rcases List.mem_map.mp h with ⟨a, _, rfl⟩
  by_cases ha : isAllowed a = true
  · simp only [ha, if_true]
  · simp [bool_eq_false ha, isAllowed_dash]

theorem mapSub_id {l : Str} (h : ∀ c ∈ l, isAllowed c = true) :
    l.map (fun c => if isAllowed c then c else '-') = l :=
  map_self_of l fun c hc => by simp [h c hc]

theorem mem_collapseDashes {c : Char} :
    ∀ (l : Str) (b : Bool), c ∈ collapseDashes l b → c ∈ l := by
  intro l
  induction l with
  | nil => intro b h; simp [collapseDashes] at h
  | cons x xs ih =>
    intro b h
    by_cases hx : x = '-'
    · subst hx
      cases b with
      | true =>
        simp only [collapseDashes, if_pos rfl, if_true] at h
        exact List.mem_cons_of_mem _ (ih true h)
      | false =>
        simp only [collapseDashes, if_pos rfl, if_true, Bool.false_eq_true, if_false,
          List.mem_cons] at h
        rcases h with h | h
        · exact h ▸ List.mem_cons_self _ _
        · exact List.mem_cons_of_mem _ (ih true h)
    · simp only [collapseDashes, if_neg hx, List.mem_cons] at h
      rcases h with h | h
      · exact h ▸ List.mem_cons_self _ _
      · exact List.mem_cons_of_mem _ (ih false h)

theorem head_collapseDashes_true {c : Char} :
    ∀ l : Str, (collapseDashes l true).head? = some c → c ≠ '-' := by
  intro l
  induction l with
  | nil => intro h; simp [collapseDashes] at h
  | cons x xs ih =>
    intro h
    by_cases hx : x = '-'
    · subst hx
      simp only [collapseDashes, if_pos rfl, if_true] at h
      exact ih h
    · simp only [collapseDashes, if_neg hx, List.head?_cons, Option.some.injEq] at h
      exact h ▸ hx

theorem length_collapseDashes_le : ∀ (l : Str) (b : Bool),
    (collapseDashes l b).length ≤ l.length := by
  intro l
  induction l with
  | nil => intro b; simp [collapseDashes]
  | cons x xs ih =>
    intro b
    by_cases hx : x = '-'
    · subst hx
      cases b with
      | true =>
        simp only [collapseDashes, if_pos rfl, if_true]
        exact Nat.le_succ_of_le (ih true)
      | false =>
        simp only [collapseDashes, if_pos rfl, if_true, Bool.false_eq_true, if_false,
          List.length_cons]
        exact Nat.succ_le_succ (ih true)
    · simp only [collapseDashes, if_neg hx, List.length_cons]
      exact Nat.succ_le_succ (ih false)

theorem noDoubleDash_tail {x : Char} {l : Str} (h : noDoubleDash (x :: l) = true) :
    noDoubleDash l = true := by
  cases l with
  | nil => rfl
  | cons y ys =>
    simp only [noDoubleDash, Bool.and_eq_true] at h
    exact h.2

theorem noDoubleDash_head_pair {x y : Char} {l : Str}
    (h : noDoubleDash (x :: y :: l) = true) : ¬(x = '-' ∧ y = '-') := by
  intro hp
  obtain ⟨hx, hy⟩ := hp
  subst hx; subst hy
  simp [noDoubleDash] at h

theorem noDoubleDash_cons_of {x : Char} {l : Str}
    (h1 : ∀ y, l.head? = some y → ¬(x = '-' ∧ y = '-'))
    (h2 : noDoubleDash l = true) : noDoubleDash (x :: l) = true := by
  cases l with
  | nil => rfl
  | cons y ys =>
    simp only [noDoubleDash, Bool.and_eq_true, Bool.not_eq_true']
    refine ⟨?_, h2⟩
    by_cases hx : x = '-'
    · by_cases hy : y = '-'
      · exact absurd ⟨hx, hy⟩ (h1 y rfl)
      · simp [hy]
    · simp [hx]

theorem noDoubleDash_collapseDashes : ∀ (l : Str) (b : Bool),
    noDoubleDash (collapseDashes l b) = true := by
  intro l
  induction l with
  | nil => intro b; rfl
  | cons x xs ih =>
    intro b
    by_cases hx : x = '-'
    · subst hx
      cases b with
      | true =>
        simp only [collapseDashes, if_pos rfl, if_true]
        exact ih true
      | false =>
        simp only [collapseDashes, if_pos rfl, if_true, Bool.false_eq_true, if_false]
        refine noDoubleDash_cons_of (fun y hy => ?_) (ih true)
        intro hp
        exact head_collapseDashes_true xs hy hp.2
    · simp only [collapseDashes, if_neg hx]
      refine noDoubleDash_cons_of (fun y hy => ?_) (ih false)
      intro hp
      exact hx hp.1

theorem collapseDashes_id : ∀ (l : Str) (b : Bool), noDoubleDash l = true →
    (b = true → l.head? ≠ some '-') → collapseDashes l b = l := by
  intro l
  induction l with
  | nil => intro b _ _; rfl
  | cons x xs ih =>
    intro b hnd hb
    by_cases hx : x = '-'
    · subst hx
      have hbf : b = false := by
        cases b
        · rfl
        · exact absurd rfl (hb rfl)
      subst hbf
      simp only [collapseDashes, if_pos rfl, if_true, Bool.false_eq_true, if_false,
        List.cons.injEq, true_and]
      refine ih true (noDoubleDash_tail hnd) fun _ hh => ?_
      cases xs with
      | nil => simp at hh
      | cons y ys =>
        simp only [List.head?_cons, Option.some.injEq] at hh
        exact noDoubleDash_head_pair hnd ⟨rfl, hh⟩
    · simp only [collapseDashes, if_neg hx, List.cons.injEq, true_and]
      exact ih false (noDoubleDash_tail hnd) (by simp)

/-! ### Lemmas about rstripP and stripDashes -/

theorem lastElem_cons_cons (a b : Char) (l : Str) :
    lastElem (a :: b :: l) = lastElem (b :: l) := rfl

theorem mem_rstripP {p : Char → Bool} {c : Char} :
    ∀ l : Str, c ∈ rstripP p l → c ∈ l := by
  intro l
  induction l with
  | nil => intro h; simp [rstripP] at h
  | cons x xs ih =>
    intro h
    cases hr : rstripP p xs with
    | nil =>
      rw [rstripP, hr] at h
      by_cases hp : p x = true
      · simp [hp] at h
      · simp only [bool_eq_false hp, Bool.false_eq_true, if_false, List.mem_singleton] at h
        exact h ▸ List.mem_cons_self _ _
    | cons y ys =>
      rw [rstripP, hr] at h
      simp only [List.mem_cons] at h
      rcases h with h | h
      · exact h ▸ List.mem_cons_self _ _
      · exact List.mem_cons_of_mem _ (ih (by rw [hr]; exact List.mem_cons.mpr h))

theorem rstripP_head {p : Char → Bool} {x : Char} {xs : Str} :
    ∀ l : Str, rstripP p l = x :: xs → l.head? = some x := by
  intro l h
  cases l with
  | nil => simp [rstripP] at h
  | cons c cs =>
    rw [rstripP] at h
    cases hr : rstripP p cs with
    | nil =>
      rw [hr] at h
      by_cases hp : p c = true
      · simp [hp] at h
      · simp only [bool_eq_false hp, Bool.false_eq_true, if_false] at h
        injection h with h1 _
        simp [h1]
    | cons y ys =>
      rw [hr] at h
      injection h with h1 _
      simp [h1]

theorem rstripP_last_false {p : Char → Bool} {c : Char} :
    ∀ l : Str, lastElem (rstripP p l) = some c → p c = false := by
  intro l
  induction l with
  | nil => intro h; simp [rstripP, lastElem] at h
  | cons x xs ih =>
    intro h
    cases hr : rstripP p xs with
    | nil =>
      rw [rstripP, hr] at h
      by_cases hp : p x = true
      · simp [hp, lastElem] at h
      · simp only [bool_eq_false hp, Bool.false_eq_true, if_false, lastElem,
          Option.some.injEq] at h
        exact h ▸ bool_eq_false hp
    | cons y ys =>
      rw [rstripP, hr, lastElem_cons_cons] at h
      exact ih (hr ▸ h)

theorem rstripP_id {p : Char → Bool} :
    ∀ l : Str, (∀ c, lastElem l = some c → p c = false) → rstripP p l = l := by
  intro l
  induction l with
  | nil => intro _; rfl
  | cons x xs ih =>
    intro h
    cases xs with
    | nil =>
      have hx : p x = false := h x rfl
      simp [rstripP, hx]
    | cons y ys =>
      have hih : rstripP p (y :: ys) = y :: ys :=
        ih fun c hc => h c ((lastElem_cons_cons x y ys).symm ▸ hc)
      rw [rstripP, hih]

theorem length_rstripP_le {p : Char → Bool} :
    ∀ l : Str, (rstripP p l).length ≤ l.length := by
  intro l
  induction l with
  | nil => simp [rstripP]
  | cons x xs ih =>
    cases hr : rstripP p xs with
    | nil =>
      rw [rstripP, hr]
      by_cases hp : p x = true
      · simp [hp]
      · simp [bool_eq_false hp]
    | cons y ys =>
      rw [rstripP, hr]
      simp only [List.length_cons]
      have hih := ih
      rw [hr] at hih
      exact Nat.succ_le_succ hih

theorem noDoubleDash_rstripP {p : Char → Bool} :
    ∀ l : Str, noDoubleDash l = true → noDoubleDash (rstripP p l) = true := by
  intro l
  induction l with
  | nil => intro _; rfl
  | cons x xs ih =>
    intro hnd
    cases hr : rstripP p xs with
    | nil =>
      rw [rstripP, hr]
      by_cases hp : p x = true
      · simp [hp, noDoubleDash]
      · simp [bool_eq_false hp, noDoubleDash]
    | cons y ys =>
      rw [rstripP, hr]
      refine noDoubleDash_cons_of (fun z hz => ?_) (hr ▸ ih (noDoubleDash_tail hnd))
      simp only [List.head?_cons, Option.some.injEq] at hz
      subst hz
      have hxs : xs.head? = some y := rstripP_head xs hr
      cases xs with
      | nil => simp at hxs
      | cons w ws =>
        simp only [List.head?_cons, Option.some.injEq] at hxs
        subst hxs
        exact noDoubleDash_head_pair hnd

theorem noDoubleDash_dropWhile {p : Char → Bool} :
    ∀ l : Str, noDoubleDash l = true → noDoubleDash (l.dropWhile p) = true := by
  intro l
  induction l with
  | nil => intro _; rfl
  | cons x xs ih =>
    intro h
    by_cases hp : p x = true
    · rw [List.dropWhile_cons_of_pos hp]
      exact ih (noDoubleDash_tail h)
    · rw [List.dropWhile_cons_of_neg (by simp [bool_eq_false hp])]
      exact h

theorem mem_stripDashes {c : Char} {l : Str} (h : c ∈ stripDashes l) : c ∈ l :=
  mem_dropWhile l (mem_rstripP _ h)

theorem head_stripDashes {c : Char} {l : Str}
    (h : (stripDashes l).head? = some c) : c ≠ '-' := by
  intro hc
  subst hc
  cases hs : stripDashes l with
  | nil => rw [hs] at h; simp at h
  | cons y ys =>
    rw [hs] at h
    simp only [List.head?_cons, Option.some.injEq] at h
    subst h
    have := head_dropWhile_false (p := fun c => c = '-') l (rstripP_head _ hs)
    simp at this

theorem lastElem_stripDashes {c : Char} {l : Str}
    (h : lastElem (stripDashes l) = some c) : c ≠ '-' := by
  intro hc
  subst hc
  have := rstripP_last_false (p := fun c => c = '-') _ h
  simp at this

theorem noDoubleDash_stripDashes {l : Str} (h : noDoubleDash l = true) :
    noDoubleDash (stripDashes l) = true :=
  noDoubleDash_rstripP _ (noDoubleDash_dropWhile l h)

theorem length_stripDashes_le (l : Str) : (stripDashes l).length ≤ l.length :=
  Nat.le_trans (length_rstripP_le _) (length_dropWhile_le' l)

theorem stripDashes_id {l : Str}
    (hh : ∀ c, l.head? = some c → c ≠ '-')
    (hl : ∀ c, lastElem l = some c → c ≠ '-') : stripDashes l = l := by
  unfold stripDashes
  rw [dropWhile_id_of_head l (fun c hc => by simp [hh c hc])]
  exact rstripP_id l fun c hc => by simp [hl c hc]

/-! ### Shape of slugify output -/

theorem noDoubleDash_take : ∀ (l : Str) (n : Nat),
    noDoubleDash l = true → noDoubleDash (l.take n) = true := by
  intro l
  induction l with
  | nil => intro n _; simp [noDoubleDash]
  | cons x xs ih =>
    intro n h
    cases n with
    | zero => rfl
    | succ m =>
      rw [List.take_succ_cons]
      refine noDoubleDash_cons_of (fun y hy => ?_) (ih m (noDoubleDash_tail h))
      intro hp
      cases m with
      | zero => simp at hy
      | succ k =>
        rw [head?_take_pos (Nat.succ_pos k)] at hy
        cases xs with
        | nil => simp at hy
        | cons w ws =>
          simp only [List.head?_cons, Option.some.injEq] at hy
          subst hy
          exact noDoubleDash_head_pair h hp

theorem slugifyFull_all_allowed {x : Str} : ∀ c ∈ slugifyFull x, isAllowed c = true := by
  intro c hc
  unfold slugifyFull at hc
  exact allowed_mapSub (mem_collapseDashes _ false (mem_stripDashes hc))

theorem slugify_all_allowed {x : Str} {n : Nat} :
    ∀ c ∈ slugify x n, isAllowed c = true := by
  intro c hc
  exact slugifyFull_all_allowed _ (List.mem_of_mem_take hc)

theorem noDoubleDash_slugifyFull (x : Str) : noDoubleDash (slugifyFull x) = true := by
  unfold slugifyFull
  exact noDoubleDash_stripDashes (noDoubleDash_collapseDashes _ false)

theorem noDoubleDash_slugify (x : Str) (n : Nat) : noDoubleDash (slugify x n) = true :=
  noDoubleDash_take _ n (noDoubleDash_slugifyFull x)

theorem head_slugify {x : Str} {n : Nat} {c : Char}
    (h : (slugify x n).head? = some c) : c ≠ '-' := by
  cases n with
  | zero => simp [slugify] at h
  | succ m =>
    rw [slugify, head?_take_pos (Nat.succ_pos m)] at h
    exact head_stripDashes h

theorem length_slugify_le (x : Str) (n : Nat) : (slugify x n).length ≤ n := by
  rw [slugify, List.length_take]
  exact Nat.min_le_left _ _

theorem slugifyFull_length_le (x : Str) : (slugifyFull x).length ≤ x.length := by
  unfold slugifyFull
  calc (stripDashes (collapseDashes ((subWS (x.map pyLower) false).map
          (fun c => if isAllowed c then c else '-')) false)).length
      ≤ (collapseDashes ((subWS (x.map pyLower) false).map
          (fun c => if isAllowed c then c else '-')) false).length :=
        length_stripDashes_le _
    _ ≤ ((subWS (x.map pyLower) false).map
          (fun c => if isAllowed c then c else '-')).length :=
        length_collapseDashes_le _ false
    _ = (subWS (x.map pyLower) false).length := List.length_map _ _
    _ ≤ (x.map pyLower).length := length_subWS_le _ false
    _ = x.length := List.length_map _ _

theorem slugify_eq_full_of_le {x : Str} {n : Nat}
    (h : (slugifyFull x).length ≤ n) : slugify x n = slugifyFull x := by
  rw [slugify]
  exact List.take_of_length_le h

theorem lastElem_slugify_no_trunc {x : Str} {n : Nat} {c : Char}
    (hn : (slugifyFull x).length ≤ n) (h : lastElem (slugify x n) = some c) : c ≠ '-' := by
  rw [slugify_eq_full_of_le hn] at h
  exact lastElem_stripDashes h

/-- The whole slugify pipeline is the identity on a string that is already
a fully formed slug: allow-list alphabet, no adjacent dashes, no leading
or trailing dash, within the length bound. -/
theorem slugify_fixed_point {y : Str} {n : Nat}
    (hall : ∀ c ∈ y, isAllowed c = true)
    (hnd : noDoubleDash y = true)
    (hh : ∀ c, y.head? = some c → c ≠ '-')
    (hl : ∀ c, lastElem y = some c → c ≠ '-')
    (hlen : y.length ≤ n) : slugify y n = y := by
  have h1 : y.map pyLower = y := map_self_of y fun c hc => pyLower_of_allowed (hall c hc)
  have h2 : subWS y false = y := subWS_id y false fun c hc => not_space_of_allowed (hall c hc)
  have h3 : y.map (fun c => if isAllowed c then c else '-') = y := mapSub_id hall
  have h4 : collapseDashes y false = y := collapseDashes_id y false hnd (by simp)
  have h5 : stripDashes y = y := stripDashes_id hh hl
  have hfull : slugifyFull y = y := by
    show stripDashes (collapseDashes ((subWS (y.map pyLower) false).map
        (fun c => if isAllowed c then c else '-')) false) = y
    rw [h1, h2, h3, h4, h5]
  rw [slugify, hfull]
  exact List.take_of_length_le hlen

/-! ### Claims C4 and C5: slugify -/

/-- C5 (amended).  For every input title, every character of
`slugify(title)` lies in the allow-list (in particular the output is
lower-case, since the allow-list contains only lower-case letters), the
output has no run of consecutive separators, no leading separator, and
length at most 60; and whenever no truncation occurs (the stripped
pipeline result already fits the 60-character bound) the output has no
trailing separator either.  The original claim's stronger guarantee —
no trailing separator even when the result was produced by truncation —
is false, because line 48 truncates after `strip('-')`, see the
counterexample. -/
theorem slugify_output_shape (x : Str) :
    (∀ c ∈ slugify x, isAllowed c = true) ∧
    noDoubleDash (slugify x) = true ∧
    (∀ c, (slugify x).head? = some c → c ≠ '-') ∧
    (slugify x).length ≤ 60 ∧
    ((slugifyFull x).length ≤ 60 → ∀ c, lastElem (slugify x) = some c → c ≠ '-') :=
  ⟨fun c hc => slugify_all_allowed c hc, noDoubleDash_slugify x 60,
   fun _ hc => head_slugify hc, length_slugify_le x 60,
   fun h _ hc => lastElem_slugify_no_trunc h hc⟩

/-- Witness for `slugify_output_shape` at a concrete title, with the
no-truncation hypothesis discharged by evaluation. -/
theorem slugify_output_shape_witness :
    noDoubleDash (slugify " Hello -- World_2025 ".toList) = true ∧
    (∀ c, lastElem (slugify " Hello -- World_2025 ".toList) = some c → c ≠ '-') :=
  ⟨(slugify_output_shape _).2.1, (slugify_output_shape _).2.2.2.2 (by decide)⟩

/-- C5 counterexample.  On an input of 59 `a`s followed by `-bb` — whose
alphabet already satisfies the token constraints — the stripped pipeline
result has 62 characters, so line 48 truncates it to 60 characters and the
output ends in the separator `-`, refuting "never ends with a trailing
separator even when the result was produced by truncation". -/
theorem slugify_trailing_dash_counterexample :
    (slugify (List.replicate 59 'a' ++ ['-', 'b', 'b'])).length = 60 ∧
    lastElem (slugify (List.replicate 59 'a' ++ ['-', 'b', 'b'])) = some '-' := by
  decide

/-- C4 (amended).  `slugify` is deterministic (it is a pure function of
its input: no randomness, no external calls), and it is idempotent on
every string whose alphabet already matches the token constraints and
whose length is within the 60-character bound.  Without the length bound
idempotence fails: truncation can cut right after a separator, which the
second application then strips, see the counterexample. -/
theorem slugify_deterministic_idempotent :
    (∀ x y : Str, x = y → slugify x = slugify y) ∧
    (∀ x : Str, (∀ c ∈ x, isAllowed c = true) → x.length ≤ 60 →
      slugify (slugify x) = slugify x) := by
  refine ⟨fun x y h => by rw [h], fun x hall hlen => ?_⟩
  have hfl : (slugifyFull x).length ≤ 60 := Nat.le_trans (slugifyFull_length_le x) hlen
  exact slugify_fixed_point (fun c hc => slugify_all_allowed c hc)
    (noDoubleDash_slugify x 60) (fun _ hc => head_slugify hc)
    (fun _ hc => lastElem_slugify_no_trunc hfl hc) (length_slugify_le x 60)

/-- Witness for `slugify_deterministic_idempotent` at a concrete title. -/
theorem slugify_deterministic_idempotent_witness :
    slugify (slugify "нейросети-в-медицине".toList) = slugify "нейросети-в-медицине".toList :=
  slugify_deterministic_idempotent.2 _ (by decide) (by decide)

/-- C4 counterexample.  The input of 59 `a`s followed by `-bb` lies
entirely in the allow-list alphabet, yet `slugify (slugify x) ≠ slugify x`:
the first application truncates to 59 `a`s plus a trailing dash, and the
second application strips that dash. -/
theorem slugify_idempotent_counterexample :
    (∀ c ∈ (List.replicate 59 'a' ++ ['-', 'b', 'b'] : Str), isAllowed c = true) ∧
    slugify (slugify (List.replicate 59 'a' ++ ['-', 'b', 'b']))
      ≠ slugify (List.replicate 59 'a' ++ ['-', 'b', 'b']) := by
  decide

/-! ### Claims C2 and C3: the OpenRouter retry policy -/

theorem genLoop_calls_le (oracle : Nat → PostOutcome) :
    ∀ (n i : Nat), (genLoop oracle i n).calls ≤ n := by
  intro n
  induction n with
  | zero => intro i; simp [genLoop]
  | succ m ih =>
    intro i
    cases ho : oracle i with
    | exn =>
      simp only [genLoop, ho]
      exact Nat.succ_le_succ (ih (i + 1))
    | resp status data =>
      simp only [genLoop, ho]
      split
      · simp
      · split
        · simp
        · simp only []
          exact Nat.succ_le_succ (ih (i + 1))

theorem genLoop_all_exn (oracle : Nat → PostOutcome) (h : ∀ i, oracle i = PostOutcome.exn) :
    genLoop oracle 0 3 = { result := GenResult.err, calls := 3, sleeps := [1, 2, 4] } := by
  norm_num [genLoop, h 0, h 1, h 2]

theorem genLoop_break (oracle : Nat → PostOutcome) (s : Nat) (d : ApiData)
    (hs : s = 401 ∨ s = 402 ∨ s = 429) (h : oracle 0 = PostOutcome.resp s d) :
    genLoop oracle 0 3 = { result := GenResult.err, calls := 1, sleeps := [] } := by
  rcases hs with hs | hs | hs <;> subst hs <;> simp [genLoop, h]

theorem genLoop_ok_first (oracle : Nat → PostOutcome) (c : ChoiceObj) (rest : List ChoiceObj)
    (h : oracle 0 = PostOutcome.resp 200 { choices := some (c :: rest) }) :
    genLoop oracle 0 3
      = { result := GenResult.ok (extractContent c), calls := 1, sleeps := [] } := by
  simp [genLoop, h, truthyChoices, extractFirst]

theorem genLoop_no_choices (oracle : Nat → PostOutcome)
    (h : ∀ i, oracle i = PostOutcome.resp 200 { choices := none }) :
    genLoop oracle 0 3 = { result := GenResult.err, calls := 3, sleeps := [1, 2, 4] } := by
  norm_num [genLoop, h 0, h 1, h 2, truthyChoices]

/-- C2.  `generate_text_via_openrouter` issues at most 3 `requests.post`
attempts; when every attempt fails with a transport error it performs all
3 attempts with exponential backoff sleeps of `2^attempt` seconds
(1, 2, 4) and then raises, upon which the caller (`create_post`'s text
step) falls back to the deterministic local template; and on an HTTP 401,
402 or 429 response it performs zero further retries, short-circuiting
out of the loop (and raising) immediately, with no backoff sleep. -/
theorem openrouter_retry_policy :
    (∀ oracle : Nat → PostOutcome, (generate_text_via_openrouter true oracle 3).calls ≤ 3) ∧
    (∀ oracle : Nat → PostOutcome, (∀ i, oracle i = PostOutcome.exn) →
      generate_text_via_openrouter true oracle 3
        = { result := GenResult.err, calls := 3, sleeps := [1, 2, 4] }) ∧
    (∀ (oracle : Nat → PostOutcome) (s : Nat) (d : ApiData),
      s = 401 ∨ s = 402 ∨ s = 429 → oracle 0 = PostOutcome.resp s d →
      generate_text_via_openrouter true oracle 3
        = { result := GenResult.err, calls := 1, sleeps := [] }) ∧
    (∀ env : Env, env.apiKeySet = true → (∀ i, env.textOracle i = PostOutcome.exn) →
      acquireText env (titleOf env) = generate_text_local_fallback (titleOf env)) := by
  refine ⟨fun oracle => ?_, fun oracle h => ?_, fun oracle s d hs h => ?_, fun env hk h => ?_⟩
  · simpa [generate_text_via_openrouter] using genLoop_calls_le oracle 3 0
  · simpa [generate_text_via_openrouter] using genLoop_all_exn oracle h
  · simpa [generate_text_via_openrouter] using genLoop_break oracle s d hs h
  · simp [acquireText, hk, generate_text_via_openrouter, genLoop_all_exn env.textOracle h]

/-- Witness for `openrouter_retry_policy`: the all-transport-failure
oracle and a concrete HTTP 402 response, with every hypothesis discharged
at those inputs. -/
theorem openrouter_retry_policy_witness :
    (generate_text_via_openrouter true allExnOracle 3).calls ≤ 3 ∧
    generate_text_via_openrouter true allExnOracle 3
      = { result := GenResult.err, calls := 3, sleeps := [1, 2, 4] } ∧
    generate_text_via_openrouter true (fun _ => PostOutcome.resp 402 { choices := none }) 3
      = { result := GenResult.err, calls := 1, sleeps := [] } ∧
    acquireText baseEnvKey (titleOf baseEnvKey)
      = generate_text_local_fallback (titleOf baseEnvKey) :=
  ⟨openrouter_retry_policy.1 allExnOracle,
   openrouter_retry_policy.2.1 allExnOracle (fun _ => rfl),
   openrouter_retry_policy.2.2.1 _ 402 { choices := none } (Or.inr (Or.inl rfl)) rfl,
   openrouter_retry_policy.2.2.2 baseEnvKey rfl (fun _ => rfl)⟩

/-- C3 counterexample.  On the concrete oracle whose every response is a
structurally invalid success (HTTP 200 with no `choices` list, hence no
content field anywhere), the claim's behaviour — no further retries
(at most one request) and a returned placeholder body rather than a raise
— is false: the provider issues all 3 requests and then raises. -/
theorem openrouter_malformed_counterexample :
    ¬ ((generate_text_via_openrouter true noChoicesOracle 3).calls ≤ 1 ∧
       (generate_text_via_openrouter true noChoicesOracle 3).result ≠ GenResult.err) := by
  decide

/-- C3 (amended).  What the code actually does with structurally invalid
success responses: (a) a 200 response with a non-empty `choices` list is
accepted on the spot — no retry, no raise — and the returned body is
whatever `extractContent` yields, which for a message dict lacking the
`content` field is the empty string (not a marked placeholder), so the
degraded body is returned as a successful result and no fallback occurs;
(b) a 200 response missing the `choices` list entirely is treated like
any other retryable failure: the provider sleeps and retries until the 3
attempts are exhausted and then raises, upon which the caller falls
back. -/
theorem openrouter_malformed_response :
    (∀ (oracle : Nat → PostOutcome) (c : ChoiceObj) (rest : List ChoiceObj),
      oracle 0 = PostOutcome.resp 200 { choices := some (c :: rest) } →
      generate_text_via_openrouter true oracle 3
        = { result := GenResult.ok (extractContent c), calls := 1, sleeps := [] }) ∧
    extractContent { message := some { content := none }, text := none } = [] ∧
    (∀ oracle : Nat → PostOutcome,
      (∀ i, oracle i = PostOutcome.resp 200 { choices := none }) →
      generate_text_via_openrouter true oracle 3
        = { result := GenResult.err, calls := 3, sleeps := [1, 2, 4] }) := by
  refine ⟨fun oracle c rest h => ?_, by decide, fun oracle h => ?_⟩
  · simpa [generate_text_via_openrouter] using genLoop_ok_first oracle c rest h
  · simpa [generate_text_via_openrouter] using genLoop_no_choices oracle h

/-- Witness for `openrouter_malformed_response` at concrete oracles: a
first response whose message dict lacks `content`, and the oracle whose
every response is 200 with no `choices` list. -/
theorem openrouter_malformed_response_witness :
    generate_text_via_openrouter true
        (fun _ => PostOutcome.resp 200
          { choices := some [{ message := some { content := none }, text := none }] }) 3
      = { result := GenResult.ok [], calls := 1, sleeps := [] } ∧
    generate_text_via_openrouter true noChoicesOracle 3
      = { result := GenResult.err, calls := 3, sleeps := [1, 2, 4] } := by
  constructor
  · have h := openrouter_malformed_response.1
      (fun _ => PostOutcome.resp 200
        { choices := some [{ message := some { content := none }, text := none }] })
      { message := some { content := none }, text := none } [] rfl
    simpa [extractContent, pyStrip] using h
  · exact openrouter_malformed_response.2.2 noChoicesOracle (fun _ => rfl)

/-! ### Unfolding lemmas for create_post -/

theorem create_post_ok (env : Env) (hm : env.mkdirOk = true) (hw : env.writeOk = true) :
    (create_post env).outcome = Except.ok
      { path := pathJoin POSTS_DIR (env.today ++ '-' :: slugify (titleOf env) ++ ".md".toList),
        fm := { title := titleOf env, date := env.nowIso,
                image := (acquireImage env env.today (slugify (titleOf env))).1.map
                  (fun p => '/' :: p) },
        body := acquireText env (titleOf env) } := by
  simp [create_post, hm, hw]

theorem create_post_events (env : Env) (hm : env.mkdirOk = true) :
    (create_post env).events = [Event.topicSelected, Event.imageAcquired, Event.textAcquired]
      ++ (if env.writeOk then [Event.fileWritten] else []) := by
  by_cases hw : env.writeOk = true
  · simp [create_post, hm, hw]
  · simp [create_post, hm, bool_eq_false hw]

theorem create_post_images (env : Env) (hm : env.mkdirOk = true) :
    (create_post env).imagesWritten = (acquireImage env env.today (slugify (titleOf env))).2.1 ∧
    (create_post env).downloadsAttempted
      = (acquireImage env env.today (slugify (titleOf env))).2.2 := by
  by_cases hw : env.writeOk = true
  · constructor <;> simp [create_post, hm, hw]
  · constructor <;> simp [create_post, hm, bool_eq_false hw]

theorem create_post_mkdir_fail (env : Env) (hm : env.mkdirOk = false) :
    create_post env
      = { events := [], imagesWritten := [], downloadsAttempted := [],
          outcome := Except.error RunError.mkdirFailed } := by
  simp [create_post, hm]

theorem create_post_write_fail (env : Env) (hm : env.mkdirOk = true) (hw : env.writeOk = false) :
    (create_post env).outcome = Except.error RunError.writeFailed := by
  simp [create_post, hm, hw]

theorem acquireImage_no_existing (env : Env) (today slug : Str)
    (hex : env.existingImages = []) (hdl : env.downloadOk = false) :
    acquireImage env today slug
      = (none, [], [pathJoin IMG_DIR (today ++ '-' :: slug ++ ".png".toList)]) := by
  simp [acquireImage, pick_existing_image, hex, download_random_image, hdl]

theorem acquireImage_copy_fail (env : Env) (today slug : Str) (e : Str) (es : List Str)
    (hex : env.existingImages = e :: es) (hc : env.copyOk = false) :
    (acquireImage env today slug).1
      = some (pathJoin IMG_DIR (today ++ '-' :: slug ++ ".png".toList)) ∧
    (acquireImage env today slug).2.2
      = [pathJoin IMG_DIR (today ++ '-' :: slug ++ ".png".toList)] ∧
    (env.downloadOk = false → (acquireImage env today slug).2.1 = []) := by
  have hpe : pick_existing_image env
      = some ((e :: es).getD (env.rngImage % (e :: es).length) []) := by
    simp [pick_existing_image, hex]
  by_cases hdl : env.downloadOk = true
  · refine ⟨?_, ?_, ?_⟩ <;> simp [acquireImage, hpe, hc, download_random_image, hdl]
  · refine ⟨?_, ?_, ?_⟩ <;>
      simp [acquireImage, hpe, hc, download_random_image, bool_eq_false hdl]

theorem acquireText_fallback (env : Env) (title : Str)
    (h : env.apiKeySet = false ∨
      (generate_text_via_openrouter true env.textOracle 3).result = GenResult.err) :
    acquireText env title = generate_text_local_fallback title := by
  rcases h with h | h
  · simp [acquireText, h]
  · by_cases hk : env.apiKeySet = true
    · simp [acquireText, hk, h]
    · simp [acquireText, bool_eq_false hk]

theorem joinNL_append_last : ∀ (xs : List Str) (a b : Str),
    joinNL (xs ++ [a ++ b]) = joinNL (xs ++ [a]) ++ b := by
  intro xs a b
  induction xs with
  | nil => rfl
  | cons x xs ih =>
    cases xs with
    | nil => simp [joinNL]
    | cons y ys =>
      calc joinNL ((x :: y :: ys) ++ [a ++ b])
          = x ++ '\n' :: joinNL ((y :: ys) ++ [a ++ b]) := rfl
        _ = x ++ '\n' :: (joinNL ((y :: ys) ++ [a]) ++ b) := by rw [ih]
        _ = joinNL ((x :: y :: ys) ++ [a]) ++ b := by
            show _ = (x ++ '\n' :: joinNL ((y :: ys) ++ [a])) ++ b
            simp

theorem renderPost_eq (p : PostRecord) :
    renderPost p = frontMatterBlock p.fm ++ '\n' :: (p.body ++ ['\n']) := by
  have h3 : ("---\n".toList : Str) = "---".toList ++ ['\n'] := rfl
  rw [renderPost, yamlFront, h3, joinNL_append_last]
  simp [frontMatterBlock, List.append_assoc]

/-! ### Claims C1 and C6..C10: create_post -/

/-- C1 (amended).  All text-provider and image-provider failures are
absorbed inside `create_post`: whenever the two filesystem steps succeed
(`ensure_dirs` and the final post-file write), the run produces a written
post, and when the remote text path is unavailable or fails
unrecoverably, that post's body is the deterministic local template.
Conversely the only exceptions that escape `create_post` are filesystem
failures — but these comprise both the post-file write of lines 174..180
and the initial `ensure_dirs` directory creation of line 119; the
original claim's "only a filesystem failure when writing the post file
propagates" is refuted by the directory-creation counterexample. -/
theorem create_post_propagation (env : Env) :
    ((∃ e, (create_post env).outcome = Except.error e) ↔
      env.mkdirOk = false ∨ env.writeOk = false) ∧
    (env.mkdirOk = true → env.writeOk = true →
      ∃ p : PostRecord, (create_post env).outcome = Except.ok p ∧
        ((env.apiKeySet = false ∨
            (generate_text_via_openrouter true env.textOracle 3).result = GenResult.err) →
          p.body = generate_text_local_fallback (titleOf env))) := by
  constructor
  · constructor
    · rintro ⟨e, he⟩
      by_cases hm : env.mkdirOk = true
      · by_cases hw : env.writeOk = true
        · rw [create_post_ok env hm hw] at he
          cases he
        · exact Or.inr (bool_eq_false hw)
      · exact Or.inl (bool_eq_false hm)
    · rintro (hm | hw)
      · exact ⟨RunError.mkdirFailed, by rw [create_post_mkdir_fail env hm]⟩
      · by_cases hm : env.mkdirOk = true
        · exact ⟨RunError.writeFailed, create_post_write_fail env hm hw⟩
        · exact ⟨RunError.mkdirFailed,
            by rw [create_post_mkdir_fail env (bool_eq_false hm)]⟩
  · intro hm hw
    refine ⟨_, create_post_ok env hm hw, ?_⟩
    intro h
    exact acquireText_fallback env (titleOf env) h

/-- Witness for `create_post_propagation`: an environment whose
`ensure_dirs` fails does raise, and the healthy environment with a
credential but an always-failing remote text collaborator writes a post
whose body is the local template. -/
theorem create_post_propagation_witness :
    (∃ e, (create_post envMkdirFails).outcome = Except.error e) ∧
    (∃ p : PostRecord, (create_post baseEnvKey).outcome = Except.ok p ∧
      p.body = generate_text_local_fallback (titleOf baseEnvKey)) := by
  constructor
  · exact (create_post_propagation envMkdirFails).1.mpr (Or.inl rfl)
  · obtain ⟨p, hp, himp⟩ := (create_post_propagation baseEnvKey).2 rfl rfl
    exact ⟨p, hp, himp (Or.inr (by decide))⟩

/-- C1 counterexample.  In an environment where every provider is healthy
and the post-file write itself would succeed, but `ensure_dirs` raises,
the run propagates that exception and writes no post — so a failure other
than "a filesystem failure when writing the post file" escapes, refuting
the claim as stated. -/
theorem create_post_mkdir_counterexample :
    runError (create_post envMkdirFails) = some RunError.mkdirFailed ∧
    envMkdirFails.writeOk = true ∧
    writtenPost (create_post envMkdirFails) = none := by
  decide

/-- C6.  For a fixed topic and a fixed date string, every successful run
of `create_post` derives the identical post path
`content/posts/{date}-{slug}.md`, with the slug computed deterministically
from the topic by `slugify`; two runs agreeing on topic and date agree on
the filename whatever their other oracles do. -/
theorem create_post_filename_deterministic (e1 e2 : Env)
    (ht : titleOf e1 = titleOf e2) (hd : e1.today = e2.today)
    (hm1 : e1.mkdirOk = true) (hw1 : e1.writeOk = true)
    (hm2 : e2.mkdirOk = true) (hw2 : e2.writeOk = true) :
    ∃ p1 p2 : PostRecord,
      (create_post e1).outcome = Except.ok p1 ∧
      (create_post e2).outcome = Except.ok p2 ∧
      p1.path = pathJoin POSTS_DIR (e1.today ++ '-' :: slugify (titleOf e1) ++ ".md".toList) ∧
      p1.path = p2.path := by
  refine ⟨_, _, create_post_ok e1 hm1 hw1, create_post_ok e2 hm2 hw2, rfl, ?_⟩
  simp [ht, hd]

/-- Witness for `create_post_filename_deterministic`: two runs on
2024-01-01 with the same drawn topic but different text-provider
configurations name the same file. -/
theorem create_post_filename_deterministic_witness :
    ∃ p1 p2 : PostRecord,
      (create_post baseEnv).outcome = Except.ok p1 ∧
      (create_post baseEnvKey).outcome = Except.ok p2 ∧
      p1.path = pathJoin POSTS_DIR
        (baseEnv.today ++ '-' :: slugify (titleOf baseEnv) ++ ".md".toList) ∧
      p1.path = p2.path :=
  create_post_filename_deterministic baseEnv baseEnvKey rfl rfl rfl rfl rfl rfl

/-- C7.  When no existing gallery image is available and the remote image
download fails, `create_post` still writes the post, and the emitted
front-matter block omits the `image:` key entirely: the block is exactly
the fence, title, date and draft lines, and the closing fence. -/
theorem create_post_omits_image_key (env : Env)
    (hex : env.existingImages = []) (hdl : env.downloadOk = false)
    (hm : env.mkdirOk = true) (hw : env.writeOk = true) :
    ∃ p : PostRecord, (create_post env).outcome = Except.ok p ∧
      p.fm.image = none ∧
      yamlFront p.fm = ["---".toList, titleLine p.fm.title, dateLine p.fm.date,
        "draft: false".toList, "---\n".toList] := by
  refine ⟨_, create_post_ok env hm hw, ?_, ?_⟩
  · simp [acquireImage_no_existing env _ _ hex hdl]
  · simp [yamlFront, yamlFields, acquireImage_no_existing env _ _ hex hdl]

/-- Witness for `create_post_omits_image_key` at the baseline
environment (empty gallery, failing download). -/
theorem create_post_omits_image_key_witness :
    ∃ p : PostRecord, (create_post baseEnv).outcome = Except.ok p ∧
      p.fm.image = none ∧
      yamlFront p.fm = ["---".toList, titleLine p.fm.title, dateLine p.fm.date,
        "draft: false".toList, "---\n".toList] :=
  create_post_omits_image_key baseEnv rfl rfl rfl rfl

/-- C8 (amended).  Within one run of `create_post` the pipeline steps
execute in the strict order: topic selection, then image acquisition,
then text acquisition, then the file write — the image step completes
before the text step begins (lines 126..145 precede lines 147..157),
which is the reverse of the order the original claim states for the
middle two steps; see the counterexample. -/
theorem create_post_step_order (env : Env) (hm : env.mkdirOk = true) :
    (create_post env).events
      = [Event.topicSelected, Event.imageAcquired, Event.textAcquired]
        ++ (if env.writeOk then [Event.fileWritten] else []) ∧
    firstIdx Event.imageAcquired (create_post env).events
      < firstIdx Event.textAcquired (create_post env).events := by
  refine ⟨create_post_events env hm, ?_⟩
  rw [create_post_events env hm]
  by_cases hw : env.writeOk = true
  · simp [hw]
    decide
  · simp [bool_eq_false hw]
    decide

/-- Witness for `create_post_step_order` at a concrete successful run. -/
theorem create_post_step_order_witness :
    (create_post envOrderRun).events
      = [Event.topicSelected, Event.imageAcquired, Event.textAcquired]
        ++ (if envOrderRun.writeOk then [Event.fileWritten] else []) ∧
    firstIdx Event.imageAcquired (create_post envOrderRun).events
      < firstIdx Event.textAcquired (create_post envOrderRun).events :=
  create_post_step_order envOrderRun rfl

/-- C8 counterexample.  On a concrete successful run the recorded step
order is topic, image, text, write: text acquisition does NOT complete
before image acquisition begins — the text step comes strictly after the
image step, refuting the claimed order. -/
theorem create_post_order_counterexample :
    (create_post envOrderRun).events
      = [Event.topicSelected, Event.imageAcquired, Event.textAcquired, Event.fileWritten] ∧
    ¬ (firstIdx Event.textAcquired (create_post envOrderRun).events
        < firstIdx Event.imageAcquired (create_post envOrderRun).events) := by
  decide

/-- C9 (amended).  Every post file written by `create_post` consists of
the front-matter block, followed by a single newline, followed
immediately by the article body (and a final newline) — there is no blank
line between the closing `---` fence and the body, because line 171
appends the body directly after the `"---\n"` element of the joined
front-matter list; see the counterexample. -/
theorem create_post_layout (env : Env) (hm : env.mkdirOk = true) (hw : env.writeOk = true) :
    ∃ p : PostRecord, (create_post env).outcome = Except.ok p ∧
      renderPost p = frontMatterBlock p.fm ++ '\n' :: (p.body ++ ['\n']) :=
  ⟨_, create_post_ok env hm hw, renderPost_eq _⟩

/-- Witness for `create_post_layout` at the baseline environment. -/
theorem create_post_layout_witness :
    ∃ p : PostRecord, (create_post baseEnv).outcome = Except.ok p ∧
      renderPost p = frontMatterBlock p.fm ++ '\n' :: (p.body ++ ['\n']) :=
  create_post_layout baseEnv rfl rfl

/-- C9 counterexample.  The file written by a concrete run starts with
the front-matter block followed by a single newline, but NOT by the
front-matter block followed by a blank line (two newlines): the body
follows the closing fence immediately, refuting the claimed layout. -/
theorem create_post_layout_counterexample :
    (writtenPost (create_post envLayoutRun)).map
        (fun p => List.isPrefixOf (frontMatterBlock p.fm ++ '\n' :: '\n' :: []) (renderPost p))
      = some false ∧
    (writtenPost (create_post envLayoutRun)).map
        (fun p => List.isPrefixOf (frontMatterBlock p.fm ++ ['\n']) (renderPost p))
      = some true := by
  decide

/-- C10.  When an existing gallery image is found but the byte-copy under
the new name fails, `create_post` attempts a fresh download to
`{date}-{slug}.png`, and the written front matter carries the `image:`
key pointing at that path whatever the download returned (the boolean
result of line 139 is discarded); in particular when the download also
fails, no image file is written during the run and the front matter
references a file that was never created. -/
theorem create_post_dangling_image (env : Env) (e : Str) (es : List Str)
    (hex : env.existingImages = e :: es) (hc : env.copyOk = false)
    (hm : env.mkdirOk = true) (hw : env.writeOk = true) :
    ∃ p : PostRecord, (create_post env).outcome = Except.ok p ∧
      (create_post env).downloadsAttempted
        = [pathJoin IMG_DIR (env.today ++ '-' :: slugify (titleOf env) ++ ".png".toList)] ∧
      p.fm.image = some ('/' :: pathJoin IMG_DIR
        (env.today ++ '-' :: slugify (titleOf env) ++ ".png".toList)) ∧
      (env.downloadOk = false → (create_post env).imagesWritten = []) := by
  obtain ⟨h1, h2, h3⟩ :=
    acquireImage_copy_fail env env.today (slugify (titleOf env)) e es hex hc
  refine ⟨_, create_post_ok env hm hw, ?_, ?_, ?_⟩
  · rw [(create_post_images env hm).2, h2]
  · simp [h1]
  · intro hdl
    rw [(create_post_images env hm).1, h3 hdl]

/-- Witness for `create_post_dangling_image`: one stale gallery image,
copy failing, download failing — the post is written, the download was
attempted at the `.png` path, the front matter references that path, and
no image file was created. -/
theorem create_post_dangling_image_witness :
    ∃ p : PostRecord, (create_post envLayoutRun).outcome = Except.ok p ∧
      (create_post envLayoutRun).downloadsAttempted
        = [pathJoin IMG_DIR
            (envLayoutRun.today ++ '-' :: slugify (titleOf envLayoutRun) ++ ".png".toList)] ∧
      p.fm.image = some ('/' :: pathJoin IMG_DIR
        (envLayoutRun.today ++ '-' :: slugify (titleOf envLayoutRun) ++ ".png".toList)) ∧
      (create_post envLayoutRun).imagesWritten = [] := by
  obtain ⟨p, h1, h2, h3, h4⟩ :=
    create_post_dangling_image envLayoutRun ("2023-12-31-old.png".toList) [] rfl rfl rfl rfl
  exact ⟨p, h1, h2, h3, h4 rfl⟩

end ContentGenerator
